import Mathlib

/-!
Shallow embedding of the Debugons backend (`backend/server.js`): the mutable
simulation state, the risk-score / zone-severity / prediction formulas, the
alert pipeline (periodic tick, parameter updates, acknowledgment) and the
read-only query handlers.  JavaScript numbers are modelled as `Option ℚ`
(`none` models `NaN`); `toFixed` / `Math.round` round half-up over `ℚ`;
the `Math.random()` draws of the source are passed in explicitly as oracle
arguments so that every operation is a pure function of state and oracles.
-/

/-- A JavaScript number: `some q` is a finite value, `none` models `NaN`.
Arithmetic, `Math.min`/`Math.max` and clamping propagate `NaN`; ordered
comparisons against `NaN` are `false`, exactly as in JavaScript. -/
abbrev JsNum := Option ℚ

/-- JavaScript `+` on numbers (`NaN` propagates). -/
def jadd : JsNum → JsNum → JsNum
  | some a, some b => some (a + b)
  | _, _ => none

/-- Multiplication of a JavaScript number by a numeric literal (`NaN` propagates). -/
def jmulC (c : ℚ) (x : JsNum) : JsNum := x.map (fun q => q * c)

/-- Division of a JavaScript number by a nonzero numeric literal (`NaN` propagates). -/
def jdivC (c : ℚ) (x : JsNum) : JsNum := x.map (fun q => q / c)

/-- JavaScript `Math.min(c, x)`: `NaN` propagates. -/
def jminC (c : ℚ) (x : JsNum) : JsNum := x.map (fun q => min c q)

/-- JavaScript `Math.max(c, x)`: `NaN` propagates. -/
def jmaxC (c : ℚ) (x : JsNum) : JsNum := x.map (fun q => max c q)

/-- JavaScript `Math.max(lo, Math.min(hi, x))`: clamping, with `NaN` propagating
through both `Math.min` and `Math.max` (so clamping never repairs a `NaN`). -/
def jclamp (lo hi : ℚ) (x : JsNum) : JsNum := x.map (fun q => max lo (min hi q))

/-- JavaScript `x > c` (false when `x` is `NaN`). -/
def jgtC (x : JsNum) (c : ℚ) : Bool :=
  match x with
  | some q => decide (c < q)
  | none => false

/-- JavaScript `x >= c` (false when `x` is `NaN`). -/
def jgeC (x : JsNum) (c : ℚ) : Bool :=
  match x with
  | some q => decide (c ≤ q)
  | none => false

/-- JavaScript `r < p` for a numeric `r` and a possibly-`NaN` bound `p`
(false when `p` is `NaN`), as in `Math.random() < 0.02 + blastingLevel/5000`. -/
def jltNum (r : ℚ) (p : JsNum) : Bool :=
  match p with
  | some q => decide (r < q)
  | none => false

/-- Round a rational to `d` decimal digits, half away from zero upwards: the
value denoted by JavaScript `x.toFixed(d)` (and recovered by `Number(...)`). -/
def roundTo (d : ℕ) (q : ℚ) : ℚ := ((round (q * 10 ^ d) : ℤ) : ℚ) / 10 ^ d

/-- JavaScript `Number(x.toFixed(d))`: rounds to `d` decimals, `NaN` propagates
(`(NaN).toFixed(d)` is the string "NaN" and `Number("NaN")` is `NaN`). -/
def jToFixed (d : ℕ) (x : JsNum) : JsNum := x.map (roundTo d)

/-- JavaScript `Math.round` (`NaN` propagates; halves round towards `+∞`,
matching Mathlib `round`). -/
def jround (x : JsNum) : JsNum := x.map (fun q => ((round q : ℤ) : ℚ))

/-- Does the character list start with the pattern list? -/
def listStartsWith : List Char → List Char → Bool
  | _, [] => true
  | [], _ :: _ => false
  | c :: cs, p :: ps => c == p && listStartsWith cs ps

/-- Does the character list contain the pattern list as a contiguous block? -/
def listHasSub : List Char → List Char → Bool
  | [], pat => pat.isEmpty
  | c :: cs, pat => listStartsWith (c :: cs) pat || listHasSub cs pat

/-- JavaScript `s.includes(pat)`: contiguous substring test. -/
def strIncludes (s pat : String) : Bool := listHasSub s.toList pat.toList

/-- The value a JavaScript template literal renders for a number. -/
def numToString : JsNum → String
  | some q => toString q
  | none => "NaN"

/-- Mutable simulation state (`let simulation = {...}` in the source):
rainfall in millimetres, seismic magnitude, blasting level. -/
structure Sim where
  rainfallMm : JsNum
  seismicMag : JsNum
  blastingLevel : JsNum
  deriving DecidableEq, Repr

/-- An alert record as stored in the `alerts` array. -/
structure Alert where
  id : ℤ
  zone : String
  msg : String
  severity : String
  time : ℤ
  acknowledged : Bool
  deriving DecidableEq, Repr

/-- A zone of the static `zones` reference list. -/
structure Zone where
  id : ℤ
  name : String
  lat : ℚ
  lng : ℚ
  baseRisk : ℚ
  deriving DecidableEq, Repr

/-- A static sensor definition from `sensorDefs`. -/
structure SensorDef where
  id : ℤ
  code : String
  type : String
  unit : String
  location : String
  battery : ℚ
  deriving DecidableEq, Repr

/-- The static zone list of the source. -/
def zones : List Zone :=
  [ { id := 1, name := "Sector A - West Wall", lat := 20.594, lng := 78.962, baseRisk := 0.75 },
    { id := 2, name := "Sector B - East Wall", lat := 20.601, lng := 78.948, baseRisk := 0.45 },
    { id := 3, name := "Sector C - North Slope", lat := 20.582, lng := 78.972, baseRisk := 0.25 } ]

/-- The static sensor-definition list of the source. -/
def sensorDefs : List SensorDef :=
  [ { id := 1, code := "S001", type := "Inclinometer", unit := "mm", location := "Sector A - West Wall", battery := 0.92 },
    { id := 2, code := "S002", type := "Piezometer", unit := "kPa", location := "Sensor Network", battery := 0.69 },
    { id := 3, code := "S003", type := "Seismometer", unit := "g", location := "Sector B - East Wall", battery := 0.67 },
    { id := 4, code := "S004", type := "Weather Station", unit := "mm", location := "Env Station", battery := 0.69 },
    { id := 5, code := "S005", type := "Strain Gauge", unit := "mm", location := "Sector C", battery := 0.78 } ]

/-- Source `computeRiskScore()`: average base risk blended with the capped
rain/seismic/blast influences, times 10, `toFixed(1)`.  The JavaScript
function returns the `toFixed` string; this embedding returns the numeric
value that string denotes (which is what every caller recovers via
`Number(...)`). -/
def computeRiskScore (sim : Sim) : JsNum :=
  let avgBase : ℚ := ((zones.map Zone.baseRisk).sum) / (zones.length : ℚ)
  let rainInfluence := jminC 1 (jdivC 200 sim.rainfallMm)
  let seismicInfluence := jminC 1 (jdivC 8 sim.seismicMag)
  let blastInfluence := jminC 1 (jdivC 100 sim.blastingLevel)
  let composite := jadd (jadd (jadd (some (avgBase * 0.6)) (jmulC 0.2 rainInfluence))
    (jmulC 0.15 seismicInfluence)) (jmulC 0.05 blastInfluence)
  jToFixed 1 (jmulC 10 composite)

/-- The `profile` section of the settings singleton. -/
structure Profile where
  name : String
  email : String
  role : String
  deriving DecidableEq, Repr

/-- The `preferences` section of the settings singleton. -/
structure Preferences where
  refreshInterval : ℚ
  units : String
  language : String
  theme : String
  deriving DecidableEq, Repr

/-- The `alerts` section of the settings singleton (thresholds and notification flags). -/
structure AlertConfig where
  vibrationThreshold : ℚ
  crackThreshold : ℚ
  tempThreshold : ℚ
  notifyEmail : Bool
  notifySMS : Bool
  notifyPush : Bool
  deriving DecidableEq, Repr

/-- The `ai` section of the settings singleton. -/
structure AiConfig where
  sensitivity : String
  explainable : Bool
  deriving DecidableEq, Repr

/-- The settings singleton (`let settings = {...}`). -/
structure Settings where
  profile : Profile
  preferences : Preferences
  alerts : AlertConfig
  ai : AiConfig
  deriving DecidableEq, Repr

/-- The whole mutable server state: simulation singleton, alert list, settings. -/
structure ServerState where
  simulation : Sim
  alerts : List Alert
  settings : Settings
  deriving DecidableEq, Repr

/-- Initial settings values from the source. -/
def initSettings : Settings :=
  { profile := { name := "Mine Admin", email := "admin@minescope.ai", role := "Admin" },
    preferences := { refreshInterval := 10, units := "metric", language := "en", theme := "dark" },
    alerts := { vibrationThreshold := 3.0, crackThreshold := 2.0, tempThreshold := 35.0,
                notifyEmail := true, notifySMS := false, notifyPush := true },
    ai := { sensitivity := "balanced", explainable := true } }

/-- The two seed alerts present at process start; `t0` is the startup clock value
(the second seed's timestamp is one hour earlier). -/
def initAlerts (t0 : ℤ) : List Alert :=
  [ { id := 1, zone := "Sector A - West Wall",
      msg := "Rockfall probability exceeded 85% threshold",
      severity := "High", time := t0, acknowledged := false },
    { id := 2, zone := "Sensor Network",
      msg := "Piezometer S002 showing irregular readings",
      severity := "Medium", time := t0 - 3600000, acknowledged := false } ]

/-- The process-start server state: all simulation fields zero, the two seed
alerts, the default settings. -/
def initState (t0 : ℤ) : ServerState :=
  { simulation := { rainfallMm := some 0, seismicMag := some 0, blastingLevel := some 0 },
    alerts := initAlerts t0,
    settings := initSettings }

/-- The predicate of `maybeCreateAlert`'s rule-1 dedup scan: an alert whose
message contains "probability exceeded" and which is not acknowledged. -/
def probUnack (a : Alert) : Bool :=
  strIncludes a.msg "probability exceeded" && !a.acknowledged

/-- Is there an unacknowledged alert whose message contains "probability exceeded"?
This is the dedup test of `maybeCreateAlert`'s rule 1. -/
def hasUnackProbAlert (l : List Alert) : Bool :=
  l.any probUnack

/-- The percentage text `(currentRisk * 10).toFixed(0)` embedded in a rule-1 message. -/
def pctString : JsNum → String
  | some q => toString (round (q * 10) : ℤ)
  | none => "NaN"

/-- The rule-1 rockfall alert record (`id` and `time` are `Date.now()`). -/
def rockfallAlert (now : ℤ) (risk : JsNum) : Alert :=
  { id := now, zone := "Sector A - West Wall",
    msg := "Rockfall probability exceeded " ++ pctString risk ++ "% threshold",
    severity := "High", time := now, acknowledged := false }

/-- The rule-2 sensor-malfunction alert record (`id` is `Date.now() + 1`). -/
def malfunctionAlert (now : ℤ) : Alert :=
  { id := now + 1, zone := "Sensor Network",
    msg := "Sensor malfunction: irregular readings detected",
    severity := "Medium", time := now, acknowledged := false }

/-- Source `maybeCreateAlert()`.  `r` is the `Math.random()` draw of rule 2 and
`now` the `Date.now()` clock value.  Rule 1 prepends a rockfall alert when the
current risk score is at least 7.5 and no unacknowledged "probability exceeded"
alert exists; rule 2 prepends a malfunction alert when `r < 0.02 +
blastingLevel/5000`; finally the list is truncated to 50 when it exceeds 50. -/
def maybeCreateAlert (r : ℚ) (now : ℤ) (st : ServerState) : ServerState :=
  let currentRisk := computeRiskScore st.simulation
  let alerts1 :=
    if jgeC currentRisk 7.5 && !hasUnackProbAlert st.alerts then
      rockfallAlert now currentRisk :: st.alerts
    else st.alerts
  let alerts2 :=
    if jltNum r (jadd (some 0.02) (jdivC 5000 st.simulation.blastingLevel)) then
      malfunctionAlert now :: alerts1
    else alerts1
  { st with alerts := if alerts2.length > 50 then alerts2.take 50 else alerts2 }

/-- The periodic `setInterval` tick: drift rainfall (only when positive) by
`rRain*4 - 2` re-clamped to `[0,300]`, always drift seismic magnitude by
`rSeis*0.2 - 0.1` re-clamped to `[0,10]`, then run `maybeCreateAlert`.
`rRain`, `rSeis`, `rAlert` are the three `Math.random()` draws. -/
def tick (rRain rSeis rAlert : ℚ) (now : ℤ) (st : ServerState) : ServerState :=
  let sim0 := st.simulation
  let sim1 :=
    if jgtC sim0.rainfallMm 0 then
      { sim0 with rainfallMm := jclamp 0 300 (jadd sim0.rainfallMm (some (rRain * 4 - 2))) }
    else sim0
  let sim2 := { sim1 with seismicMag := jclamp 0 10 (jadd sim1.seismicMag (some (rSeis * 0.2 - 0.1))) }
  maybeCreateAlert rAlert now { st with simulation := sim2 }

/-- A `POST /api/simulation` body after `Number(...)` coercion of each present
field: `none` is an absent field, `some none` a present non-numeric field
(coerced to `NaN`), `some (some q)` a present numeric field. -/
structure SimBody where
  rainfallMm : Option JsNum
  seismicMag : Option JsNum
  blastingLevel : Option JsNum
  deriving DecidableEq, Repr

/-- The synchronous "Simulated" alert a parameter update prepends
(`id` is `Date.now() + Math.floor(Math.random()*1000)`, passed as `idNoise`). -/
def simulatedAlert (idNoise now : ℤ) (sim : Sim) : Alert :=
  { id := now + idNoise, zone := "Simulated",
    msg := "Simulation triggered HIGH-RISK conditions (rain=" ++ numToString sim.rainfallMm
      ++ ", seismic=" ++ numToString sim.seismicMag ++ ")",
    severity := "High", time := now, acknowledged := false }

/-- The field loop of `POST /api/simulation`: each present field is
`Number`-coerced and clamped into its range (clamping propagates a `NaN`
coercion); absent fields stay untouched. -/
def applySimBody (body : SimBody) (sim0 : Sim) : Sim :=
  let sim1 :=
    match body.rainfallMm with
    | some v => { sim0 with rainfallMm := jclamp 0 300 v }
    | none => sim0
  let sim2 :=
    match body.seismicMag with
    | some v => { sim1 with seismicMag := jclamp 0 10 v }
    | none => sim1
  match body.blastingLevel with
  | some v => { sim2 with blastingLevel := jclamp 0 100 v }
  | none => sim2

/-- Source `POST /api/simulation`, after the field loop: if the resulting
rainfall exceeds 150 or the resulting seismic magnitude exceeds 6, one
High-severity "Simulated" alert is prepended (with no cap truncation). -/
def simUpdate (body : SimBody) (idNoise now : ℤ) (st : ServerState) : ServerState :=
  let sim3 := applySimBody body st.simulation
  let st1 := { st with simulation := sim3 }
  if jgtC sim3.rainfallMm 150 || jgtC sim3.seismicMag 6 then
    { st1 with alerts := simulatedAlert idNoise now sim3 :: st1.alerts }
  else st1

/-- Acknowledge the first alert in the list whose id matches (the object the
source's `alerts.find` mutates in place). -/
def ackFirstAux (i : ℤ) : List Alert → List Alert
  | [] => []
  | a :: rest =>
    if a.id == i then { a with acknowledged := true } :: rest
    else a :: ackFirstAux i rest

/-- Source `POST /api/alerts/:id/ack`: find the alert with the given id; if
none exists answer NotFound (`none`) leaving the state untouched, else set its
`acknowledged` flag and answer the updated alert. -/
def ackAlert (i : ℤ) (st : ServerState) : Option Alert × ServerState :=
  match st.alerts.find? (fun a => a.id == i) with
  | none => (none, st)
  | some a => (some { a with acknowledged := true }, { st with alerts := ackFirstAux i st.alerts })

/-- The `GET /api/overview` response body. -/
structure Overview where
  activeAlerts : ℕ
  sensorsOnline : String
  riskScore : JsNum
  weatherImpact : String
  lastUpdated : ℤ
  deriving DecidableEq, Repr

/-- Source `GET /api/overview`: count of unacknowledged alerts, online-sensor
text, current risk score and the rainfall-driven weather impact.  The handler
only reads, so it answers the state it was given unchanged. -/
def getOverview (now : ℤ) (st : ServerState) : Overview × ServerState :=
  ({ activeAlerts := (st.alerts.filter (fun a => !a.acknowledged)).length,
     sensorsOnline := toString (round ((sensorDefs.length : ℚ) * 0.9) : ℤ) ++ "/"
       ++ toString sensorDefs.length,
     riskScore := computeRiskScore st.simulation,
     weatherImpact :=
       if jgtC st.simulation.rainfallMm 50 then "High"
       else if jgtC st.simulation.rainfallMm 10 then "Moderate"
       else "Low",
     lastUpdated := now }, st)

/-- Source `GET /api/alerts`: the 20 most recent alerts. -/
def getAlerts (st : ServerState) : List Alert × ServerState :=
  (st.alerts.take 20, st)

/-- Source `generateSensorReading(def)`: a reading formula keyed by sensor
type over the current simulation fields, with one `Math.random()` draw `r`,
formatted per type to 1, 2, 3 or 4 decimals. -/
def generateSensorReading (r : ℚ) (sim : Sim) (sd : SensorDef) : JsNum :=
  match sd.type with
  | "Inclinometer" =>
    jToFixed 3 (jadd (jadd (jadd (some 0.5) (jmulC 0.02 sim.blastingLevel))
      (jmulC 0.01 sim.rainfallMm)) (some (r * 2)))
  | "Piezometer" =>
    jToFixed 3 (jadd (jadd (some 20) (jmulC 0.4 sim.rainfallMm)) (some (r * 10)))
  | "Seismometer" =>
    jToFixed 4 (jmaxC 0 (jadd (jadd (jmulC 0.01 sim.seismicMag)
      (jmulC 0.005 sim.blastingLevel)) (some (r * 0.03))))
  | "Weather Station" =>
    if jgtC sim.rainfallMm 0 then jToFixed 1 sim.rainfallMm else some (roundTo 1 (r * 5))
  | "Strain Gauge" =>
    jToFixed 4 (jadd (jadd (some 0.05) (jmulC 0.001 sim.blastingLevel)) (some (r * 0.2)))
  | _ => some (roundTo 2 (r * 100))

/-- One row of the `GET /api/sensors` response. -/
structure SensorOut where
  id : ℤ
  code : String
  type : String
  location : String
  value : JsNum
  unit : String
  battery : ℤ
  status : String
  lastUpdate : ℤ
  deriving DecidableEq, Repr

/-- Source `GET /api/sensors`: one row per static sensor definition; `fr`,
`fb`, `fo`, `fw` are the per-sensor `Math.random()` draws for the reading, the
battery drain, the offline chance and the warning chance. -/
def getSensors (fr fb fo fw : ℕ → ℚ) (now : ℤ) (st : ServerState) :
    List SensorOut × ServerState :=
  (sensorDefs.enum.map (fun p =>
    { id := p.2.id, code := p.2.code, type := p.2.type, location := p.2.location,
      value := generateSensorReading (fr p.1) st.simulation p.2,
      unit := p.2.unit,
      battery := round ((p.2.battery - fb p.1 * 0.05) * 100),
      status :=
        if fo p.1 < 0.02 then "offline"
        else if fw p.1 < 0.05 then "warning"
        else "online",
      lastUpdate := now }), st)

/-- Source `generatePredictionSeries()`: six points starting from the current
risk score, each adding the rainfall/seismic drift plus jitter `f i * 2 - 1`
scaled by `i / 2`, clamped to `[0,10]` and rounded to one decimal. -/
def generatePredictionSeries (f : ℕ → ℚ) (sim : Sim) : List String × List JsNum :=
  let baseline := computeRiskScore sim
  let steps := ["Now", "1h", "3h", "6h", "12h", "24h"]
  (steps, (List.range steps.length).map (fun i =>
    let drift := jadd (jadd (jmulC 0.01 sim.rainfallMm) (jmulC 0.2 sim.seismicMag))
      (some (f i * 2 - 1))
    let val := jmaxC 0 (jminC 10 (jadd baseline (jmulC ((i : ℚ) / 2) drift)))
    jdivC 10 (jround (jmulC 10 val))))

/-- Source `generateAccuracyHistory()`: five randomized percentages. -/
def generateAccuracyHistory (g : ℕ → ℚ) : List String × List ℤ :=
  (["1 Week", "2 Weeks", "1 Month", "3 Months", "6 Months"],
   [round (88 + g 0 * 7 : ℚ), round (85 + g 1 * 8 : ℚ), round (80 + g 2 * 10 : ℚ),
    round (78 + g 3 * 8 : ℚ), round (75 + g 4 * 8 : ℚ)])

/-- The `GET /api/predictions` response body. -/
structure Predictions where
  currentRiskScore : JsNum
  seriesLabels : List String
  seriesValues : List JsNum
  accuracyLabels : List String
  accuracyValues : List ℤ
  deriving DecidableEq, Repr

/-- Source `GET /api/predictions`. -/
def getPredictions (f g : ℕ → ℚ) (st : ServerState) : Predictions × ServerState :=
  ({ currentRiskScore := computeRiskScore st.simulation,
     seriesLabels := (generatePredictionSeries f st.simulation).1,
     seriesValues := (generatePredictionSeries f st.simulation).2,
     accuracyLabels := (generateAccuracyHistory g).1,
     accuracyValues := (generateAccuracyHistory g).2 }, st)

/-- One row of the `GET /api/map` response: the zone spread together with the
derived `score` (two-decimal rounded) and `severity`. -/
structure ZoneOut where
  id : ℤ
  name : String
  lat : ℚ
  lng : ℚ
  baseRisk : ℚ
  score : JsNum
  severity : String
  deriving DecidableEq, Repr

/-- Source per-zone annotation inside `GET /api/map`: the raw score is
`min(1, baseRisk*0.6 + rainfallFactor*0.25 + seismicFactor*0.15 + r*0.05)`
with `r` the `Math.random()` draw; the response carries
`Number(score.toFixed(2))` while the severity thresholds compare the raw
(unrounded) score. -/
def annotateZone (sim : Sim) (r : ℚ) (z : Zone) : ZoneOut :=
  let rainfallFactor := jminC 1 (jdivC 200 sim.rainfallMm)
  let seismicFactor := jminC 1 (jdivC 8 sim.seismicMag)
  let score := jminC 1 (jadd (jadd (jadd (some (z.baseRisk * 0.6))
    (jmulC 0.25 rainfallFactor)) (jmulC 0.15 seismicFactor)) (some (r * 0.05)))
  { id := z.id, name := z.name, lat := z.lat, lng := z.lng, baseRisk := z.baseRisk,
    score := jToFixed 2 score,
    severity :=
      if jgtC score 0.7 then "High"
      else if jgtC score 0.4 then "Medium"
      else "Low" }

/-- Source `GET /api/map`: annotate every zone (one noise draw per zone). -/
def getMap (noise : ℕ → ℚ) (st : ServerState) : List ZoneOut × ServerState :=
  (zones.enum.map (fun p => annotateZone st.simulation (noise p.1) p.2), st)

/-- Source `GET /api/simulation`: the current simulation state. -/
def getSimulation (st : ServerState) : Sim × ServerState :=
  (st.simulation, st)

/-- The `GET /api/export/report` response body. -/
structure Report where
  generatedAt : ℤ
  riskScore : JsNum
  activeAlerts : ℕ
  sensorsOnline : ℤ
  topAlerts : List Alert
  topZones : List (ℤ × String)
  deriving DecidableEq, Repr

/-- Source `GET /api/export/report`. -/
def exportReport (now : ℤ) (st : ServerState) : Report × ServerState :=
  ({ generatedAt := now,
     riskScore := computeRiskScore st.simulation,
     activeAlerts := (st.alerts.filter (fun a => !a.acknowledged)).length,
     sensorsOnline := round ((sensorDefs.length : ℚ) * 0.9),
     topAlerts := st.alerts.take 5,
     topZones := zones.map (fun z => (z.id, z.name)) }, st)

/-- The repeated parameter update used to overflow the alert cap: rainfall 200
keeps the trigger `rainfallMm > 150` firing on every update. -/
def pumpBody : SimBody :=
  { rainfallMm := some (some 200), seismicMag := none, blastingLevel := none }

/-- One cap-free alert insertion via `POST /api/simulation`. -/
def pump (st : ServerState) : ServerState := simUpdate pumpBody 0 0 st

/-- The average base risk of the fixed zone list, as the spec's formula names
it: `(0.75 + 0.45 + 0.25) / 3`. -/
def avgBaseRisk : ℚ := (0.75 + 0.45 + 0.25) / 3

/-- Modelled from the spec's words (refinement comparison for C3): the
composite `avgBaseRisk*0.6 + rainInfluence*0.2 + seismicInfluence*0.15 +
blastInfluence*0.05`, each influence capped at 1. -/
def riskCompositeSpec (r s b : ℚ) : ℚ :=
  avgBaseRisk * 0.6 + min 1 (r / 200) * 0.2 + min 1 (s / 8) * 0.15 + min 1 (b / 100) * 0.05

/-- Modelled from the spec's words (refinement comparison for C3): the
composite times 10, rounded to one decimal. -/
def riskScoreSpec (r s b : ℚ) : ℚ := roundTo 1 (riskCompositeSpec r s b * 10)

/-- Modelled from the spec's words (refinement comparison for C8): per-zone
score `min(1, baseRisk*0.6 + rainFactor*0.25 + seismicFactor*0.15 + noise)`. -/
def zoneScoreSpec (z : Zone) (r s ν : ℚ) : ℚ :=
  min 1 (z.baseRisk * 0.6 + min 1 (r / 200) * 0.25 + min 1 (s / 8) * 0.15 + ν)


/-! Helper lemmas. -/

lemma round_mono_q {x y : ℚ} (h : x ≤ y) : round x ≤ round y := by
  rw [round_eq, round_eq]
  exact Int.floor_mono (by linarith)

lemma roundTo_mono (d : ℕ) {x y : ℚ} (h : x ≤ y) : roundTo d x ≤ roundTo d y := by
  unfold roundTo
  have hp : (0 : ℚ) < 10 ^ d := by positivity
  exact (div_le_div_iff_of_pos_right hp).2 (Int.cast_le.2 (round_mono_q (by nlinarith)))

lemma roundTo_zero (d : ℕ) : roundTo d 0 = 0 := by
  simp [roundTo]

lemma roundTo_ten (d : ℕ) : roundTo d 10 = 10 := by
  unfold roundTo
  have h10 : (10 : ℚ) * 10 ^ d = ((10 * 10 ^ d : ℤ) : ℚ) := by push_cast; ring
  rw [h10, round_intCast]
  have hp : (0 : ℚ) < 10 ^ d := by positivity
  push_cast
  field_simp

lemma ackFirstAux_of_no_match (i : ℤ) (l : List Alert) (h : ∀ a ∈ l, a.id ≠ i) :
    ackFirstAux i l = l := by
  induction l with
  | nil => rfl
  | cons a rest ih =>
    have ha : a.id ≠ i := h a (List.mem_cons_self a rest)
    simp only [ackFirstAux]
    rw [if_neg (by simpa using ha), ih (fun x hx => h x (List.mem_cons_of_mem a hx))]

lemma find?_ackFirstAux (i : ℤ) (l : List Alert) :
    (ackFirstAux i l).find? (fun a => a.id == i) =
      (l.find? (fun a => a.id == i)).map (fun a => { a with acknowledged := true }) := by
  induction l with
  | nil => rfl
  | cons a rest ih =>
    by_cases h : a.id = i
    · simp [ackFirstAux, List.find?_cons, h]
    · simp [ackFirstAux, List.find?_cons, h, ih]

lemma ackFirstAux_idem (i : ℤ) (l : List Alert) :
    ackFirstAux i (ackFirstAux i l) = ackFirstAux i l := by
  induction l with
  | nil => rfl
  | cons a rest ih =>
    by_cases h : a.id = i
    · simp [ackFirstAux, h]
    · simp [ackFirstAux, h, ih]

/-- C7: acknowledging by id sets exactly the first matching alert's
`acknowledged` flag to true and answers the updated alert; it answers NotFound
(`none`) exactly when no alert carries the id, leaving the whole state (and in
particular the alert list) unchanged; and acknowledging again is a no-op
success that still answers an acknowledged alert. -/
theorem ackAlert_correct (st : ServerState) (i : ℤ) :
    ((ackAlert i st).1 = (st.alerts.find? (fun a => a.id == i)).map
        (fun a => { a with acknowledged := true })) ∧
    (((ackAlert i st).1 = none) ↔ ∀ a ∈ st.alerts, a.id ≠ i) ∧
    ((ackAlert i st).1 = none → (ackAlert i st).2 = st) ∧
    ((ackAlert i st).1.all (fun a => a.acknowledged) = true) ∧
    ((ackAlert i st).2.alerts = ackFirstAux i st.alerts) ∧
    ((ackAlert i st).2.simulation = st.simulation) ∧
    ((ackAlert i st).2.settings = st.settings) ∧
    (ackAlert i ((ackAlert i st).2) = ackAlert i st) := by
  rcases hf : st.alerts.find? (fun a => a.id == i) with _ | a
  · have hn : ∀ a ∈ st.alerts, a.id ≠ i := by
      intro a ha
      have := List.find?_eq_none.1 hf a ha
      simpa using this
    refine ⟨?_, ?_, ?_, ?_, ?_, ?_, ?_, ?_⟩ <;>
      · simp [ackAlert, hf, ackFirstAux_of_no_match i st.alerts hn, hn]
        try exact fun a ha => hn a ha
  · have hpa : a.id = i := by
      have := List.find?_some hf
      simpa using this
    have hmem : a ∈ st.alerts := List.mem_of_find?_eq_some hf
    refine ⟨by simp [ackAlert, hf], ?_, ?_, ?_, ?_, ?_, ?_, ?_⟩
    · exact iff_of_false (by simp [ackAlert, hf]) (fun h => h a hmem hpa)
    · intro h
      simp [ackAlert, hf] at h
    · simp [ackAlert, hf, Option.all]
    · simp [ackAlert, hf]
    · simp [ackAlert, hf]
    · simp [ackAlert, hf]
    · simp [ackAlert, hf, find?_ackFirstAux, ackFirstAux_idem]

/-- C7 witness: at the initial state, acknowledging the unknown id 99 is
NotFound and leaves the state untouched. -/
theorem ackAlert_correct_witness :
    (ackAlert 99 (initState 0)).1 = none ∧ (ackAlert 99 (initState 0)).2 = initState 0 :=
  ⟨by rfl, (ackAlert_correct (initState 0) 99).2.2.1 (by rfl)⟩

/-- C9: every read-only query handler (overview, sensors, alerts, predictions,
map, simulation, export report) answers the state it was given unchanged —
simulation, alert list and settings included — so repeated querying can never
create an alert; alert creation lives only in the tick and the parameter
update. -/
theorem readHandlers_pure (st : ServerState) (now : ℤ) (fr fb fo fw f g noise : ℕ → ℚ) :
    (getOverview now st).2 = st ∧
    (getSensors fr fb fo fw now st).2 = st ∧
    (getAlerts st).2 = st ∧
    (getPredictions f g st).2 = st ∧
    (getMap noise st).2 = st ∧
    (getSimulation st).2 = st ∧
    (exportReport now st).2 = st :=
  ⟨rfl, rfl, rfl, rfl, rfl, rfl, rfl⟩

/-- C1 is violated by the code: a `POST /api/simulation` whose `rainfallMm`
value is a non-numeric string is coerced by `Number(...)` to `NaN`, and
`Math.max(0, Math.min(300, NaN))` stores `NaN` (modelled `none`) into the
simulation state instead of rejecting it or keeping the previous value — the
stored field is then outside `[0,300]` (it is not a number at all). -/
theorem simUpdate_nonnumeric_stores_nan :
    ((simUpdate { rainfallMm := some none, seismicMag := none, blastingLevel := none } 0 0
        (initState 0)).simulation.rainfallMm = none) ∧
    (((simUpdate { rainfallMm := some none, seismicMag := none, blastingLevel := none } 0 0
        (initState 0)).simulation.rainfallMm).isSome = false) :=
  ⟨rfl, rfl⟩

lemma trunc50_eq_take (l : List Alert) : (if l.length > 50 then l.take 50 else l) = l.take 50 := by
  by_cases h : l.length > 50
  · simp [h]
  · simp [h, List.take_of_length_le (Nat.le_of_not_lt h)]

lemma maybeCreateAlert_alerts_eq (r : ℚ) (now : ℤ) (st : ServerState) :
    (maybeCreateAlert r now st).alerts =
      ((if jltNum r (jadd (some 0.02) (jdivC 5000 st.simulation.blastingLevel)) then
          [malfunctionAlert now] else []) ++
       (if jgeC (computeRiskScore st.simulation) 7.5 && !hasUnackProbAlert st.alerts then
          [rockfallAlert now (computeRiskScore st.simulation)] else []) ++
       st.alerts).take 50 := by
  simp only [maybeCreateAlert]
  rw [trunc50_eq_take]
  by_cases h1 : (jgeC (computeRiskScore st.simulation) 7.5 && !hasUnackProbAlert st.alerts) = true <;>
    by_cases h2 : jltNum r (jadd (some 0.02) (jdivC 5000 st.simulation.blastingLevel)) = true <;>
    simp [h1, h2]

lemma maybeCreateAlert_simulation (r : ℚ) (now : ℤ) (st : ServerState) :
    (maybeCreateAlert r now st).simulation = st.simulation := rfl

lemma simUpdate_simulation (body : SimBody) (idn now : ℤ) (st : ServerState) :
    (simUpdate body idn now st).simulation = applySimBody body st.simulation := by
  by_cases h : (jgtC (applySimBody body st.simulation).rainfallMm 150
      || jgtC (applySimBody body st.simulation).seismicMag 6) = true <;>
    simp [simUpdate, h]

lemma simUpdate_alerts (body : SimBody) (idn now : ℤ) (st : ServerState) :
    (simUpdate body idn now st).alerts =
      if jgtC (applySimBody body st.simulation).rainfallMm 150
          || jgtC (applySimBody body st.simulation).seismicMag 6 then
        simulatedAlert idn now (applySimBody body st.simulation) :: st.alerts
      else st.alerts := by
  by_cases h : (jgtC (applySimBody body st.simulation).rainfallMm 150
      || jgtC (applySimBody body st.simulation).seismicMag 6) = true <;>
    simp [simUpdate, h]

/-- C2 (amended): after a tick's `maybeCreateAlert` the alert list is at most
50 long, equal to the newly inserted alerts prepended to the previous list and
then truncated to the 50 most recent (newest-first order kept, only the oldest
dropped); the parameter update's synchronous "Simulated" alert, however, is
prepended with no truncation, so updates can grow the list beyond 50 until the
next tick truncates it. -/
theorem alertCap_amended (st : ServerState) (r : ℚ) (now : ℤ)
    (body : SimBody) (idn nowU : ℤ) :
    ((maybeCreateAlert r now st).alerts.length ≤ 50) ∧
    ((maybeCreateAlert r now st).alerts =
      ((if jltNum r (jadd (some 0.02) (jdivC 5000 st.simulation.blastingLevel)) then
          [malfunctionAlert now] else []) ++
       (if jgeC (computeRiskScore st.simulation) 7.5 && !hasUnackProbAlert st.alerts then
          [rockfallAlert now (computeRiskScore st.simulation)] else []) ++
       st.alerts).take 50) ∧
    ((simUpdate body idn nowU st).alerts =
      if jgtC (simUpdate body idn nowU st).simulation.rainfallMm 150
          || jgtC (simUpdate body idn nowU st).simulation.seismicMag 6 then
        simulatedAlert idn nowU (simUpdate body idn nowU st).simulation :: st.alerts
      else st.alerts) := by
  refine ⟨?_, maybeCreateAlert_alerts_eq r now st, ?_⟩
  · rw [maybeCreateAlert_alerts_eq]
    simp
  · rw [simUpdate_simulation, simUpdate_alerts]

lemma pump_alerts_length (st : ServerState) :
    (pump st).alerts.length = st.alerts.length + 1 := by
  have hsim : applySimBody pumpBody st.simulation =
      { st.simulation with rainfallMm := some 200 } := by
    simp only [applySimBody, pumpBody, jclamp, Option.map]
    norm_num
  rw [pump, simUpdate_alerts, hsim]
  norm_num [jgtC]

lemma pump_iter_length (n : ℕ) : (pump^[n] (initState 0)).alerts.length = 2 + n := by
  induction n with
  | zero => rfl
  | succ k ih =>
    rw [Function.iterate_succ_apply', pump_alerts_length, ih]
    omega

/-- C2 counterexample: starting from the initial state (2 alerts), 49
parameter updates — each an operation that inserts a "Simulated" alert — leave
51 alerts: the list is NOT truncated to 50 on this insertion path. -/
theorem alertCap_counterexample :
    (pump^[49] (initState 0)).alerts.length = 51 ∧
    50 < (pump^[49] (initState 0)).alerts.length := by
  have h := pump_iter_length 49
  exact ⟨by omega, by omega⟩

lemma any_probUnack_eq_false (l : List Alert) (h : l.filter probUnack = []) :
    l.any probUnack = false := by
  have := List.filter_eq_nil_iff.1 h
  simp only [List.any_eq_false]
  exact this

lemma ackFirstAux_clears (i : ℤ) (l : List Alert) (a : Alert)
    (ha : l.filter probUnack = [a]) (hb : l.filter (fun x => x.id == i) = [a]) :
    hasUnackProbAlert (ackFirstAux i l) = false := by
  induction l with
  | nil => rfl
  | cons x xs ih =>
    by_cases hid : x.id = i
    · have hb' : x = a ∧ xs.filter (fun y => y.id == i) = [] := by
        simpa [List.filter_cons, hid] using hb
      by_cases hP : probUnack x = true
      · have ha' : x = a ∧ xs.filter probUnack = [] := by
          simpa [List.filter_cons, hP] using ha
        have hstep : ackFirstAux i (x :: xs) = { x with acknowledged := true } :: xs := by
          simp [ackFirstAux, hid]
        rw [hstep]
        simp only [hasUnackProbAlert, List.any_cons, probUnack]
        have := any_probUnack_eq_false xs ha'.2
        simp only [hasUnackProbAlert] at this
        simp [this]
      · have ha' : xs.filter probUnack = [a] := by
          simpa [List.filter_cons, hP] using ha
        have hmem : a ∈ xs.filter probUnack := by
          rw [ha']; exact List.mem_cons_self a []
        have hpa : probUnack a = true := (List.mem_filter.1 hmem).2
        rw [hb'.1] at hP
        exact absurd hpa hP
    · have hb' : xs.filter (fun y => y.id == i) = [a] := by
        simpa [List.filter_cons, hid] using hb
      have hmem : a ∈ xs.filter (fun y => y.id == i) := by
        rw [hb']; exact List.mem_cons_self a []
      have haid : a.id = i := by
        have := (List.mem_filter.1 hmem).2
        simpa using this
      by_cases hP : probUnack x = true
      · have ha' : x = a ∧ xs.filter probUnack = [] := by
          simpa [List.filter_cons, hP] using ha
        exact absurd (ha'.1 ▸ haid) hid
      · have ha' : xs.filter probUnack = [a] := by
          simpa [List.filter_cons, hP] using ha
        have hrec := ih ha' hb'
        have hstep : ackFirstAux i (x :: xs) = x :: ackFirstAux i xs := by
          simp [ackFirstAux, hid]
        rw [hstep]
        simp only [hasUnackProbAlert, List.any_cons] at hrec ⊢
        simp [hP, hrec]

/-- C4: `maybeCreateAlert` prepends exactly one new High-severity rockfall
alert for "Sector A - West Wall" (its message embedding `riskScore*10` rounded
to zero decimals as a percentage) precisely when the current risk score is at
least 7.5 and no unacknowledged "probability exceeded" alert exists; when such
an unacknowledged alert exists (here: exactly one, `a`, whose id is unique in
the list) rule 1 adds nothing, and acknowledging `a` clears the dedup guard so
a next qualifying tick may add a new one. -/
theorem rule1_dedup (st : ServerState) (r : ℚ) (now : ℤ) (a : Alert)
    (h1 : st.alerts.filter probUnack = [a])
    (h2 : st.alerts.filter (fun x => x.id == a.id) = [a]) :
    ((maybeCreateAlert r now st).alerts =
      ((if jltNum r (jadd (some 0.02) (jdivC 5000 st.simulation.blastingLevel)) then
          [malfunctionAlert now] else []) ++
       (if jgeC (computeRiskScore st.simulation) 7.5 && !hasUnackProbAlert st.alerts then
          [rockfallAlert now (computeRiskScore st.simulation)] else []) ++
       st.alerts).take 50) ∧
    ((rockfallAlert now (computeRiskScore st.simulation)).severity = "High") ∧
    ((rockfallAlert now (computeRiskScore st.simulation)).zone = "Sector A - West Wall") ∧
    ((rockfallAlert now (computeRiskScore st.simulation)).msg =
      "Rockfall probability exceeded " ++ pctString (computeRiskScore st.simulation)
        ++ "% threshold") ∧
    (hasUnackProbAlert st.alerts = true) ∧
    (hasUnackProbAlert (ackFirstAux a.id st.alerts) = false) := by
  have hmem : a ∈ st.alerts.filter probUnack := by
    rw [h1]; exact List.mem_cons_self a []
  refine ⟨maybeCreateAlert_alerts_eq r now st, rfl, rfl, rfl, ?_,
    ackFirstAux_clears a.id st.alerts a h1 h2⟩
  simp only [hasUnackProbAlert, List.any_eq_true]
  exact ⟨a, (List.mem_filter.1 hmem).1, (List.mem_filter.1 hmem).2⟩

/-- C4 witness: at the initial state the unique unacknowledged "probability
exceeded" alert is the first seed alert (id 1); acknowledging id 1 clears the
rule-1 dedup guard. -/
theorem rule1_dedup_witness :
    ((initState 0).alerts.filter probUnack =
      [{ id := 1, zone := "Sector A - West Wall",
         msg := "Rockfall probability exceeded 85% threshold",
         severity := "High", time := 0, acknowledged := false }]) ∧
    hasUnackProbAlert (initState 0).alerts = true ∧
    hasUnackProbAlert (ackFirstAux 1 (initState 0).alerts) = false := by
  have h := rule1_dedup (initState 0) 0 0
    { id := 1, zone := "Sector A - West Wall",
      msg := "Rockfall probability exceeded 85% threshold",
      severity := "High", time := 0, acknowledged := false }
    (by decide) (by decide)
  exact ⟨by decide, h.2.2.2.2.1, h.2.2.2.2.2⟩

lemma maybeCreateAlert_no_rule1 (r : ℚ) (now : ℤ) (st : ServerState)
    (h : hasUnackProbAlert st.alerts = true) :
    (maybeCreateAlert r now st).alerts =
      ((if jltNum r (jadd (some 0.02) (jdivC 5000 st.simulation.blastingLevel)) then
          [malfunctionAlert now] else []) ++ st.alerts).take 50 := by
  rw [maybeCreateAlert_alerts_eq]
  simp [h]

/-- C10: at process start the alert list holds exactly the two unacknowledged
seed alerts — one of them containing "probability exceeded" — so overview
initially reports 2 active alerts and ids 1 and 2 acknowledge successfully;
and in any state that still holds an unacknowledged "probability exceeded"
alert, a tick can only add the rule-2 malfunction alert, never a rule-1
rockfall alert, whatever the risk score is. -/
theorem seed_alerts_block_rule1 (t0 clock now : ℤ) (rRain rSeis rAlert : ℚ)
    (st : ServerState) (h : hasUnackProbAlert st.alerts = true) :
    ((initState t0).alerts.length = 2) ∧
    (∀ a ∈ (initState t0).alerts, a.acknowledged = false) ∧
    (∃ a ∈ (initState t0).alerts, strIncludes a.msg "probability exceeded" = true) ∧
    ((getOverview clock (initState t0)).1.activeAlerts = 2) ∧
    ((ackAlert 1 (initState t0)).1.isSome = true) ∧
    ((ackAlert 2 (initState t0)).1.isSome = true) ∧
    ((tick rRain rSeis rAlert now st).alerts =
      ((if jltNum rAlert (jadd (some 0.02)
            (jdivC 5000 (tick rRain rSeis rAlert now st).simulation.blastingLevel)) then
          [malfunctionAlert now] else []) ++ st.alerts).take 50) := by
  refine ⟨rfl, ?_, ?_, ?_, ?_, ?_, ?_⟩
  · intro a ha
    simp only [initState, initAlerts, List.mem_cons, List.mem_singleton] at ha
    rcases ha with h1 | h1 | h1
    · rw [h1]
    · rw [h1]
    · exact absurd h1 (List.not_mem_nil a)
  · simp only [initState, initAlerts]
    exact ⟨_, List.mem_cons_self _ _, by rfl⟩
  · rfl
  · rfl
  · rfl
  · exact maybeCreateAlert_no_rule1 rAlert now _ h

/-- C10 witness: the initial state itself carries the blocking seed alert, so
a tick from it can only add the rule-2 malfunction alert. -/
theorem seed_alerts_block_rule1_witness :
    hasUnackProbAlert (initState 0).alerts = true ∧
    ((tick 0 0 0 0 (initState 0)).alerts =
      ((if jltNum 0 (jadd (some 0.02)
            (jdivC 5000 (tick 0 0 0 0 (initState 0)).simulation.blastingLevel)) then
          [malfunctionAlert 0] else []) ++ (initState 0).alerts).take 50) :=
  ⟨by decide, (seed_alerts_block_rule1 0 0 0 0 0 0 (initState 0) (by decide)).2.2.2.2.2.2⟩

lemma computeRiskScore_eval (r s b : ℚ) :
    computeRiskScore ⟨some r, some s, some b⟩ = some (riskScoreSpec r s b) := by
  simp only [computeRiskScore, jToFixed, jminC, jdivC, jmulC, jadd, Option.map, zones,
    List.map, List.sum_cons, List.sum_nil, List.length, riskScoreSpec, riskCompositeSpec,
    avgBaseRisk, List.map_cons, List.map_nil, Option.some.injEq]
  congr 1
  ring_nf

lemma min1_nonneg {x : ℚ} (hx : 0 ≤ x) : 0 ≤ min 1 x := le_min (by norm_num) hx

lemma riskComposite_bounds (r s b : ℚ) (hr : 0 ≤ r) (hs : 0 ≤ s) (hb : 0 ≤ b) :
    0 ≤ riskCompositeSpec r s b * 10 ∧ riskCompositeSpec r s b * 10 ≤ 10 := by
  have h1 := min1_nonneg (show (0:ℚ) ≤ r / 200 by positivity)
  have h2 := min_le_left (1 : ℚ) (r / 200)
  have h3 := min1_nonneg (show (0:ℚ) ≤ s / 8 by positivity)
  have h4 := min_le_left (1 : ℚ) (s / 8)
  have h5 := min1_nonneg (show (0:ℚ) ≤ b / 100 by positivity)
  have h6 := min_le_left (1 : ℚ) (b / 100)
  unfold riskCompositeSpec avgBaseRisk
  constructor <;> nlinarith

lemma riskScoreSpec_bounds (r s b : ℚ) (hr : 0 ≤ r) (hs : 0 ≤ s) (hb : 0 ≤ b) :
    0 ≤ riskScoreSpec r s b ∧ riskScoreSpec r s b ≤ 10 := by
  have hcb := riskComposite_bounds r s b hr hs hb
  constructor
  · have := roundTo_mono 1 hcb.1
    rwa [roundTo_zero] at this
  · have := roundTo_mono 1 hcb.2
    rwa [roundTo_ten] at this

lemma riskScoreSpec_mono (r s b r' s' b' : ℚ) (h1 : r ≤ r') (h2 : s ≤ s') (h3 : b ≤ b') :
    riskScoreSpec r s b ≤ riskScoreSpec r' s' b' := by
  apply roundTo_mono
  have m1 : min 1 (r / 200) ≤ min 1 (r' / 200) := min_le_min le_rfl (by linarith)
  have m2 : min 1 (s / 8) ≤ min 1 (s' / 8) := min_le_min le_rfl (by linarith)
  have m3 : min 1 (b / 100) ≤ min 1 (b' / 100) := min_le_min le_rfl (by linarith)
  unfold riskCompositeSpec
  nlinarith

/-- C3: for every in-clamp simulation state, `computeRiskScore` equals the
spec formula (composite of `avgBaseRisk*0.6` plus capped influences, times 10,
rounded to one decimal), lies in `[0,10]`, and at the all-zero state equals
`avgBaseRisk*6` rounded to one decimal, which is exactly 2.9. -/
theorem computeRiskScore_correct (r s b : ℚ) (hr0 : 0 ≤ r) (_hr1 : r ≤ 300)
    (hs0 : 0 ≤ s) (_hs1 : s ≤ 10) (hb0 : 0 ≤ b) (_hb1 : b ≤ 100) :
    (computeRiskScore ⟨some r, some s, some b⟩ = some (riskScoreSpec r s b)) ∧
    (0 ≤ riskScoreSpec r s b) ∧ (riskScoreSpec r s b ≤ 10) ∧
    (computeRiskScore ⟨some 0, some 0, some 0⟩ = some (29 / 10)) ∧
    ((29 / 10 : ℚ) = roundTo 1 (avgBaseRisk * 6)) := by
  have hz : riskScoreSpec 0 0 0 = 29 / 10 := by
    norm_num [riskScoreSpec, riskCompositeSpec, avgBaseRisk, roundTo, round_eq, min_def]
  refine ⟨computeRiskScore_eval r s b, (riskScoreSpec_bounds r s b hr0 hs0 hb0).1,
    (riskScoreSpec_bounds r s b hr0 hs0 hb0).2, ?_, ?_⟩
  · rw [computeRiskScore_eval, hz]
  · norm_num [avgBaseRisk, roundTo, round_eq]

/-- C3 witness: the all-zero state, where the score is exactly 2.9. -/
theorem computeRiskScore_correct_witness :
    (computeRiskScore ⟨some 0, some 0, some 0⟩ = some (riskScoreSpec 0 0 0)) ∧
    (0 ≤ riskScoreSpec 0 0 0) ∧ (riskScoreSpec 0 0 0 ≤ 10) ∧
    (computeRiskScore ⟨some 0, some 0, some 0⟩ = some (29 / 10)) ∧
    ((29 / 10 : ℚ) = roundTo 1 (avgBaseRisk * 6)) :=
  computeRiskScore_correct 0 0 0 (by norm_num) (by norm_num) (by norm_num) (by norm_num)
    (by norm_num) (by norm_num)

/-- C6: within the clamp ranges `computeRiskScore` lies in `[0,10]` and is
monotonically non-decreasing in rainfall, seismic magnitude and blasting level
individually, the other two held fixed. -/
theorem computeRiskScore_monotone (r s b r' s' b' : ℚ)
    (hr0 : 0 ≤ r) (_hr1 : r ≤ 300) (hs0 : 0 ≤ s) (_hs1 : s ≤ 10) (hb0 : 0 ≤ b) (_hb1 : b ≤ 100)
    (hrr : r ≤ r') (_hr2 : r' ≤ 300) (hss : s ≤ s') (_hs2 : s' ≤ 10)
    (hbb : b ≤ b') (_hb2 : b' ≤ 100) :
    (computeRiskScore ⟨some r, some s, some b⟩ = some (riskScoreSpec r s b)) ∧
    (0 ≤ riskScoreSpec r s b) ∧ (riskScoreSpec r s b ≤ 10) ∧
    (riskScoreSpec r s b ≤ riskScoreSpec r' s b) ∧
    (riskScoreSpec r s b ≤ riskScoreSpec r s' b) ∧
    (riskScoreSpec r s b ≤ riskScoreSpec r s b') :=
  ⟨computeRiskScore_eval r s b, (riskScoreSpec_bounds r s b hr0 hs0 hb0).1,
    (riskScoreSpec_bounds r s b hr0 hs0 hb0).2,
    riskScoreSpec_mono r s b r' s b hrr le_rfl le_rfl,
    riskScoreSpec_mono r s b r s' b le_rfl hss le_rfl,
    riskScoreSpec_mono r s b r s b' le_rfl le_rfl hbb⟩

/-- C6 witness: monotone step from the all-zero state to (100, 5, 50). -/
theorem computeRiskScore_monotone_witness :
    (computeRiskScore ⟨some 0, some 0, some 0⟩ = some (riskScoreSpec 0 0 0)) ∧
    (0 ≤ riskScoreSpec 0 0 0) ∧ (riskScoreSpec 0 0 0 ≤ 10) ∧
    (riskScoreSpec 0 0 0 ≤ riskScoreSpec 100 0 0) ∧
    (riskScoreSpec 0 0 0 ≤ riskScoreSpec 0 5 0) ∧
    (riskScoreSpec 0 0 0 ≤ riskScoreSpec 0 0 50) :=
  computeRiskScore_monotone 0 0 0 100 5 50 (by norm_num) (by norm_num) (by norm_num)
    (by norm_num) (by norm_num) (by norm_num) (by norm_num) (by norm_num) (by norm_num)
    (by norm_num) (by norm_num) (by norm_num)

/-- C5: a parameter update with any subset of numeric fields clamps each
present field into its range (rainfall to `[0,300]`, seismic to `[0,10]`,
blasting to `[0,100]`) and leaves each absent field unchanged; and exactly one
High-severity "Simulated" alert embedding the resulting rainfall/seismic
values is prepended if and only if the resulting rainfall exceeds 150 or the
resulting seismic magnitude exceeds 6. -/
theorem simUpdate_correct (st : ServerState) (rO sO bO : Option ℚ) (idn now : ℤ) :
    ((simUpdate ⟨rO.map some, sO.map some, bO.map some⟩ idn now st).simulation.rainfallMm =
      rO.elim st.simulation.rainfallMm (fun q => some (max 0 (min 300 q)))) ∧
    ((simUpdate ⟨rO.map some, sO.map some, bO.map some⟩ idn now st).simulation.seismicMag =
      sO.elim st.simulation.seismicMag (fun q => some (max 0 (min 10 q)))) ∧
    ((simUpdate ⟨rO.map some, sO.map some, bO.map some⟩ idn now st).simulation.blastingLevel =
      bO.elim st.simulation.blastingLevel (fun q => some (max 0 (min 100 q)))) ∧
    ((simUpdate ⟨rO.map some, sO.map some, bO.map some⟩ idn now st).alerts =
      if jgtC (simUpdate ⟨rO.map some, sO.map some, bO.map some⟩ idn now
            st).simulation.rainfallMm 150
          || jgtC (simUpdate ⟨rO.map some, sO.map some, bO.map some⟩ idn now
            st).simulation.seismicMag 6 then
        simulatedAlert idn now
          (simUpdate ⟨rO.map some, sO.map some, bO.map some⟩ idn now st).simulation
          :: st.alerts
      else st.alerts) := by
  refine ⟨?_, ?_, ?_, ?_⟩
  · rw [simUpdate_simulation]
    rcases rO with _ | q <;> rcases sO with _ | q2 <;> rcases bO with _ | q3 <;>
      simp [applySimBody, jclamp]
  · rw [simUpdate_simulation]
    rcases rO with _ | q <;> rcases sO with _ | q2 <;> rcases bO with _ | q3 <;>
      simp [applySimBody, jclamp]
  · rw [simUpdate_simulation]
    rcases rO with _ | q <;> rcases sO with _ | q2 <;> rcases bO with _ | q3 <;>
      simp [applySimBody, jclamp]
  · rw [simUpdate_alerts, simUpdate_simulation]

/-- C8 counterexample: with rainfall 3.2mm and zero seismic, zone 2 (base risk
0.45) has raw score 0.274 for the zero noise draw; the annotated score is its
`toFixed(2)` rounding 0.27, which no noise in `[0, 0.05)` can produce from the
claimed formula (whose value is always at least 0.274 there): the annotated
score is a rounded value, not the formula value. -/
theorem mapScore_counterexample :
    ((getMap (fun _ => 0)
        ⟨⟨some (16/5), some 0, some 0⟩, [], initSettings⟩).1.get? 1 =
      some (annotateZone ⟨some (16/5), some 0, some 0⟩ 0
        ⟨2, "Sector B - East Wall", 20.601, 78.948, 0.45⟩)) ∧
    ((annotateZone ⟨some (16/5), some 0, some 0⟩ 0
        ⟨2, "Sector B - East Wall", 20.601, 78.948, 0.45⟩).score = some (27/100)) ∧
    (¬ ∃ ν : ℚ, 0 ≤ ν ∧ ν < 1/20 ∧
      (27/100 : ℚ) = min 1 ((0.45 : ℚ) * 0.6 + min 1 ((16/5 : ℚ) / 200) * 0.25
        + min 1 ((0 : ℚ) / 8) * 0.15 + ν)) := by
  refine ⟨rfl, ?_, ?_⟩
  · simp only [annotateZone, jminC, jdivC, jmulC, jadd, jToFixed, Option.map]
    norm_num [roundTo, round_eq, min_def]
  · rintro ⟨ν, hn0, hn1, heq⟩
    have e1 : min (1 : ℚ) ((16/5 : ℚ) / 200) = 2/125 := by norm_num [min_def]
    have e2 : min (1 : ℚ) ((0 : ℚ) / 8) = 0 := by norm_num [min_def]
    rw [e1, e2] at heq
    have hle : (0.45 : ℚ) * 0.6 + (2/125 : ℚ) * 0.25 + (0 : ℚ) * 0.15 + ν ≤ 1 := by linarith
    rw [min_eq_right hle] at heq
    linarith

/-- C8 (amended): for a numeric simulation state, each zone's raw score is
`min(1, baseRisk*0.6 + rainFactor*0.25 + seismicFactor*0.15 + noise)` with
noise `ρ*0.05` in `[0, 0.05)`; the response is annotated with that raw score
rounded to two decimals (`Number(score.toFixed(2))`), while the severity is
computed from the raw (unrounded) score: High exactly when it exceeds 0.7,
Medium exactly when it exceeds 0.4 but not 0.7, else Low — a raw score of
exactly 0.7 yields Medium, not High. -/
theorem mapZone_amended (r s b ρ : ℚ) (z : Zone) (h0 : 0 ≤ ρ) (h1 : ρ < 1) :
    ((annotateZone ⟨some r, some s, some b⟩ ρ z).score =
      some (roundTo 2 (zoneScoreSpec z r s (ρ * 0.05)))) ∧
    (0 ≤ ρ * 0.05 ∧ ρ * 0.05 < 1/20) ∧
    ((annotateZone ⟨some r, some s, some b⟩ ρ z).severity =
      if 0.7 < zoneScoreSpec z r s (ρ * 0.05) then "High"
      else if 0.4 < zoneScoreSpec z r s (ρ * 0.05) then "Medium" else "Low") ∧
    (zoneScoreSpec z r s (ρ * 0.05) = 0.7 →
      (annotateZone ⟨some r, some s, some b⟩ ρ z).severity = "Medium") := by
  have hsev : (annotateZone ⟨some r, some s, some b⟩ ρ z).severity =
      if 0.7 < zoneScoreSpec z r s (ρ * 0.05) then "High"
      else if 0.4 < zoneScoreSpec z r s (ρ * 0.05) then "Medium" else "Low" := by
    simp [annotateZone, zoneScoreSpec, jminC, jdivC, jmulC, jadd, jgtC, Option.map]
  refine ⟨?_, ⟨by positivity, by nlinarith⟩, hsev, ?_⟩
  · simp [annotateZone, zoneScoreSpec, jminC, jdivC, jmulC, jadd, jToFixed, Option.map]
  · intro h7
    rw [hsev, h7]
    norm_num

/-- C8 witness: base risk 1 and rainfall 80 give a raw score of exactly 0.7
(with zero noise), which the code labels Medium. -/
theorem mapZone_amended_witness :
    ((annotateZone ⟨some 80, some 0, some 0⟩ 0 ⟨9, "Z", 0, 0, 1⟩).score =
      some (roundTo 2 (zoneScoreSpec ⟨9, "Z", 0, 0, 1⟩ 80 0 (0 * 0.05)))) ∧
    (zoneScoreSpec ⟨9, "Z", 0, 0, 1⟩ 80 0 (0 * 0.05) = 0.7) ∧
    ((annotateZone ⟨some 80, some 0, some 0⟩ 0 ⟨9, "Z", 0, 0, 1⟩).severity = "Medium") := by
  have h := mapZone_amended 80 0 0 0 ⟨9, "Z", 0, 0, 1⟩ (by norm_num) (by norm_num)
  have h07 : zoneScoreSpec ⟨9, "Z", 0, 0, 1⟩ 80 0 (0 * 0.05) = 0.7 := by
    norm_num [zoneScoreSpec, min_def]
  exact ⟨h.1, h07, h.2.2.2 h07⟩
